import Mathlib

/-!
Verification development for the member reconciliation and graceful
rolling-upgrade engine of the tidb-operator repository.

The Go sources are shallowly embedded as executable Lean definitions:
  - pkg/manager/member/pd_upgrader.go        (gracefulUpgrade, upgradePDPod)
  - the pump member manager                  (syncPumpStatefulSetForTidbCluster,
                                              getNewPumpStatefulSet,
                                              pumpStatefulSetIsUpgrading)
  - pkg/backup/backupschedule/backup_schedule_manager.go (getLastScheduledTime)

External I/O (pod lister, PD client, statefulset control, binlog client) is
modelled by explicit environment records whose fields carry the observed
results of those calls; the control flow of the Go functions is translated
branch by branch.
-/

/-- Component lifecycle phase, v1alpha1.MemberPhase (NormalPhase,
UpgradePhase, ScalePhase). -/
inductive MemberPhase
  | normal
  | upgrade
  | scale
deriving DecidableEq, Repr

/-- StatefulSet update strategy type (apps.StatefulSetUpdateStrategyType). -/
inductive StrategyType
  | rollingUpdate
  | onDelete
deriving DecidableEq, Repr

/-- Shallow embedding of an apps.StatefulSet, keeping only the fields the
embedded functions read or write.  rollingUpdatePartition models
Spec.UpdateStrategy.RollingUpdate: none stands for a nil RollingUpdate
pointer, some p for a present RollingUpdate with Partition p (the operator
always sets Partition on the strategies it writes, and Kubernetes defaults
it, so a present-but-partitionless RollingUpdate is collapsed into some).
lastAppliedPodSpec models the last-applied-configuration annotation: the pod
spec recovered by GetLastAppliedConfig, none when the annotation is absent
or unparseable. -/
structure StatefulSet where
  replicas : Nat
  deleteSlots : List Nat
  strategyType : StrategyType
  rollingUpdatePartition : Option Nat
  templateSpec : String
  lastAppliedPodSpec : Option String
deriving DecidableEq, Repr

/-- One PD member record from tc.Status.PD.Members / PeerMembers. -/
structure PDMember where
  name : String
  health : Bool
deriving DecidableEq, Repr

/-- The PD part of tc.Status used by the upgrader: Synced, Phase, the
StatefulSet status revisions and replicas, the Members map (as a lookup
function), PeerMembers and the leader name. -/
structure PDStatusT where
  synced : Bool
  phase : MemberPhase
  currentRevision : String
  updateRevision : String
  stsReplicas : Nat
  members : String → Option PDMember
  peerMembers : List PDMember
  leaderName : String

/-- Shallow embedding of the TidbCluster object: the metadata and status
fields read by the embedded functions.  nspace is ObjectMeta.Namespace. -/
structure TidbCluster where
  name : String
  nspace : String
  clusterDomain : String
  paused : Bool
  pd : PDStatusT
  ticdcPhase : MemberPhase
  tiflashPhase : MemberPhase
  tikvPhase : MemberPhase
  pumpPhase : MemberPhase
  pumpReplicas : Nat

/-- Modelled from the spec: member pod naming for ordinal-addressed members
(the function PdPodName of the member package is not among the provided
sources; the spec refers to an ordinal's pod name).  The pod of ordinal i of
cluster c is named from c and i. -/
def PdPodName (tcName : String) (ordinal : Nat) : String :=
  tcName ++ "-pd-" ++ toString ordinal

/-- Modelled from the spec: member naming (the function PdName of the member
package is not among the provided sources).  With an empty cluster domain
the member name coincides with the pod name; with a cluster domain the
fully-qualified peer DNS name is used. -/
def PdName (tcName : String) (ordinal : Nat) (nspace clusterDomain : String) : String :=
  if clusterDomain.length > 0 then
    PdPodName tcName ordinal ++ "." ++ tcName ++ "-pd-peer." ++ nspace ++ ".svc." ++ clusterDomain
  else
    PdPodName tcName ordinal

/-- Modelled from the spec: section 4.1 Ordinal Set Calculator.  LiveOrdinals
(helper.GetPodOrdinals of the advanced-statefulset library, not among the
provided sources) returns the strictly increasing sequence of the first
replicas natural numbers not in deleteSlots. -/
def liveOrdinals (replicas : Nat) (deleteSlots : List Nat) : List Nat :=
  ((List.range (replicas + deleteSlots.length)).filter
    (fun n => !(deleteSlots.contains n))).take replicas

/-- GetPodOrdinals applied to a StatefulSet reads its delete-slots
annotation; here the slots are a field of the embedded StatefulSet. -/
def getPodOrdinals (replicas : Nat) (s : StatefulSet) : List Nat :=
  liveOrdinals replicas s.deleteSlots

/-- Modelled from the spec: MaxOrdinal is the last of the live-ordinal
sequence (helper.GetMaxPodOrdinal, not among the provided sources). -/
def getMaxPodOrdinal (replicas : Nat) (s : StatefulSet) : Nat :=
  (getPodOrdinals replicas s).getLast?.getD 0

/-- Modelled from the spec: MinOrdinal is the first of the live-ordinal
sequence (helper.GetMinPodOrdinal, not among the provided sources). -/
def getMinPodOrdinal (replicas : Nat) (s : StatefulSet) : Nat :=
  (getPodOrdinals replicas s).head?.getD 0

/-- Modelled from the spec: template equality gate.  templateEqual (not
among the provided sources) compares the new pod template spec with the pod
spec recorded in the old set's last-applied-configuration annotation and is
false when that annotation is absent. -/
def templateEqual (newSet oldSet : StatefulSet) : Bool :=
  match oldSet.lastAppliedPodSpec with
  | some s => s == newSet.templateSpec
  | none => false

/-- Modelled from the spec: the cursor setter contract of section 9
(setUpgradePartition, not among the provided sources): it overwrites the
update strategy with a managed RollingUpdate strategy whose Partition is the
given ordinal. -/
def setUpgradePartition (s : StatefulSet) (upgradeOrdinal : Nat) : StatefulSet :=
  { s with strategyType := StrategyType.rollingUpdate,
           rollingUpdatePartition := some upgradeOrdinal }

/-- Modelled from the spec: tc.PDScaling (not among the provided sources)
reports whether PD is mid-scale, i.e. its phase is the scaling phase. -/
def PDScaling (tc : TidbCluster) : Bool :=
  tc.pd.phase == MemberPhase.scale

/-- Modelled from the spec: tc.PDStsActualReplicas (not among the provided
sources) is the observed replica count of the PD StatefulSet status. -/
def PDStsActualReplicas (tc : TidbCluster) : Nat :=
  tc.pd.stsReplicas

/-- A pod as seen through the pod lister: only its
controller-revision-hash label matters here (none when the label is absent). -/
structure Pod where
  revisionLabel : Option String
deriving DecidableEq, Repr

/-- Environment of the PD upgrader: the pod lister keyed by pod name, the
webhook CLI flag, and the PD client's TransferPDLeader call (none means the
transfer request succeeded, some e that it failed with error e). -/
structure PDEnv where
  pods : String → Option Pod
  podWebhookEnabled : Bool
  transferLeader : String → Option String

/-- Result of one reconciliation step: nil error, a plain error
(fmt.Errorf or a propagated dependency error), or a
controller.RequeueError. -/
inductive OpResult
  | ok
  | err (msg : String)
  | requeue (msg : String)
deriving DecidableEq, Repr

/-- Everything a gracefulUpgrade call produces: its returned error value,
the mutated newSet, the PD phase written into tc.Status, the targets of the
leadership-transfer requests it issued, and the ordinals passed to
setUpgradePartition, in call order. -/
structure UpgradeOutcome where
  result : OpResult
  newSet : StatefulSet
  pdPhase : MemberPhase
  transfers : List String
  cursorSets : List Nat
deriving Repr

/-- Target selection of upgradePDPod (pd_upgrader.go lines 119-136): with
more than one actual replica, the extreme live ordinal opposite the vacating
one, as a member name if recognized, else as a pod name; with a single
replica, the first healthy peer member other than the vacating one; the
empty string when nothing is found. -/
def pdUpgradeTarget (tc : TidbCluster) (ordinal : Nat) (newSet : StatefulSet) : String :=
  let upgradePdName := PdName tc.name ordinal tc.nspace tc.clusterDomain
  if PDStsActualReplicas tc > 1 then
    let maxOrdinal := getMaxPodOrdinal newSet.replicas newSet
    let targetOrdinal :=
      if ordinal == maxOrdinal then getMinPodOrdinal newSet.replicas newSet else maxOrdinal
    let tn := PdName tc.name targetOrdinal tc.nspace tc.clusterDomain
    match tc.pd.members tn with
    | some _ => tn
    | none => PdPodName tc.name targetOrdinal
  else
    match tc.pd.peerMembers.find? (fun m => m.name != upgradePdName && m.health) with
    | some m => m.name
    | none => ""

/-- Embedding of upgradePDPod (pd_upgrader.go lines 113-149).  When the
ordinal holds leadership and a nonempty target is found, a transfer is
issued: failure propagates the client error, success returns a requeue
error; in every other case the partition is set to the ordinal and nil is
returned. -/
def upgradePDPod (env : PDEnv) (tc : TidbCluster) (ordinal : Nat)
    (newSet : StatefulSet) (phase : MemberPhase) : UpgradeOutcome :=
  let upgradePdName := PdName tc.name ordinal tc.nspace tc.clusterDomain
  let upgradePodName := PdPodName tc.name ordinal
  if tc.pd.leaderName == upgradePdName || tc.pd.leaderName == upgradePodName then
    let targetName := pdUpgradeTarget tc ordinal newSet
    if targetName.length > 0 then
      match env.transferLeader targetName with
      | some e =>
          { result := OpResult.err e, newSet := newSet, pdPhase := phase,
            transfers := [targetName], cursorSets := [] }
      | none =>
          { result := OpResult.requeue "pd member is transferring leader", newSet := newSet,
            pdPhase := phase, transfers := [targetName], cursorSets := [] }
    else
      { result := OpResult.ok, newSet := setUpgradePartition newSet ordinal,
        pdPhase := phase, transfers := [], cursorSets := [ordinal] }
  else
    { result := OpResult.ok, newSet := setUpgradePartition newSet ordinal,
      pdPhase := phase, transfers := [], cursorSets := [ordinal] }

/-- Embedding of the per-ordinal walk of gracefulUpgrade (pd_upgrader.go
lines 82-108), over the list of live ordinals in descending order: missing
pod is a plain error; missing revision label a requeue error; a pod already
at the update revision requires a healthy member record to continue
downward; the first revision-mismatched pod either gets the cursor directly
(webhook branch) or goes through upgradePDPod. -/
def upgradeLoop (env : PDEnv) (tc : TidbCluster) (newSet : StatefulSet)
    (phase : MemberPhase) : List Nat → UpgradeOutcome
  | [] =>
      { result := OpResult.ok, newSet := newSet, pdPhase := phase,
        transfers := [], cursorSets := [] }
  | i :: rest =>
      match env.pods (PdPodName tc.name i) with
      | none =>
          { result := OpResult.err "gracefulUpgrade: failed to get pod", newSet := newSet,
            pdPhase := phase, transfers := [], cursorSets := [] }
      | some pod =>
          match pod.revisionLabel with
          | none =>
              { result := OpResult.requeue "pd pod has no controller-revision-hash label",
                newSet := newSet, pdPhase := phase, transfers := [], cursorSets := [] }
          | some revision =>
              if revision == tc.pd.updateRevision then
                match tc.pd.members (PdName tc.name i tc.nspace tc.clusterDomain) with
                | some m =>
                    if m.health then upgradeLoop env tc newSet phase rest
                    else
                      { result := OpResult.requeue "pd upgraded pod is not ready",
                        newSet := newSet, pdPhase := phase, transfers := [], cursorSets := [] }
                | none =>
                    { result := OpResult.requeue "pd upgraded pod is not ready",
                      newSet := newSet, pdPhase := phase, transfers := [], cursorSets := [] }
              else if env.podWebhookEnabled then
                { result := OpResult.ok, newSet := setUpgradePartition newSet i,
                  pdPhase := phase, transfers := [], cursorSets := [i] }
              else
                upgradePDPod env tc i newSet phase

/-- Embedding of gracefulUpgrade (pd_upgrader.go lines 41-111).  The outcome
records the returned error, the mutated newSet, the PD phase written to
tc.Status (unchanged on the branches before line 61), transfers issued and
setUpgradePartition calls made. -/
def gracefulUpgrade (env : PDEnv) (tc : TidbCluster)
    (oldSet newSet : StatefulSet) : UpgradeOutcome :=
  if !tc.pd.synced then
    { result := OpResult.err "pd status sync failed, can not to be upgraded",
      newSet := newSet, pdPhase := tc.pd.phase, transfers := [], cursorSets := [] }
  else if tc.ticdcPhase == MemberPhase.upgrade || PDScaling tc then
    match oldSet.lastAppliedPodSpec with
    | none =>
        { result := OpResult.err "GetLastAppliedConfig failed", newSet := newSet,
          pdPhase := tc.pd.phase, transfers := [], cursorSets := [] }
    | some podSpec =>
        { result := OpResult.ok, newSet := { newSet with templateSpec := podSpec },
          pdPhase := tc.pd.phase, transfers := [], cursorSets := [] }
  else
    let phase := MemberPhase.upgrade
    if !(templateEqual newSet oldSet) then
      { result := OpResult.ok, newSet := newSet, pdPhase := phase,
        transfers := [], cursorSets := [] }
    else if tc.pd.updateRevision == tc.pd.currentRevision then
      { result := OpResult.ok, newSet := newSet, pdPhase := phase,
        transfers := [], cursorSets := [] }
    else if oldSet.strategyType == StrategyType.onDelete then
      let ns2 := { newSet with strategyType := oldSet.strategyType,
                               rollingUpdatePartition := oldSet.rollingUpdatePartition }
      { result := OpResult.ok, newSet := ns2, pdPhase := phase,
        transfers := [], cursorSets := [] }
    else
      match oldSet.rollingUpdatePartition with
      | none =>
          let ns2 := { newSet with strategyType := oldSet.strategyType,
                                   rollingUpdatePartition := oldSet.rollingUpdatePartition }
          { result := OpResult.ok, newSet := ns2, pdPhase := phase,
            transfers := [], cursorSets := [] }
      | some oldPartition =>
          let ns1 := setUpgradePartition newSet oldPartition
          let o := upgradeLoop env tc ns1 phase
            ((liveOrdinals oldSet.replicas oldSet.deleteSlots).reverse)
          { o with cursorSets := oldPartition :: o.cursorSets }

/-- A pump pod as seen through the pod lister: only the
controller-revision-hash label matters (none when absent). -/
structure PumpPod where
  revisionLabel : Option String
deriving DecidableEq, Repr

/-- Observation of the managed pump StatefulSet at lookup time: the set
itself together with the status fields the pump manager reads.
statusUpdateRevision is set.Status.UpdateRevision, copied into
tc.Status.Pump.StatefulSet; statusUpgrading is the result of the helper
statefulSetIsUpgrading on set.Status (that helper is not among the provided
sources, so its result is carried as an observed boolean). -/
structure PumpStsObserved where
  set : StatefulSet
  statusUpdateRevision : String
  statusUpgrading : Bool
deriving DecidableEq, Repr

/-- Result of the StatefulSet lister lookup for the pump set: found,
IsNotFound, or another lookup error. -/
inductive PumpLookup
  | found (o : PumpStsObserved)
  | notFound
  | lookupErr (msg : String)
deriving DecidableEq, Repr

/-- Environment of the pump member manager: the lister lookup, the pump pod
list (none when the selector build or the pod listing fails), the binlog
client build and node-status calls, the config-map sync, the two inputs of
getNewPumpStatefulSet that can fail (ParseStorageRequest and the start
script rendering), and the outcomes of the control-plane writes. -/
structure PumpEnv where
  stsLookup : PumpLookup
  pumpPods : Option (List PumpPod)
  binlogBuildErr : Option String
  binlogMembers : Except String (List String)
  configMap : Except String String
  parseStorage : Except String String
  startScript : Except String String
  annotationOk : Bool
  createErr : Option String
  scaleErr : Option String
  updateErr : Option String

/-- The in-order scan of the listed pump pods inside
pumpStatefulSetIsUpgrading (part_000 lines 544-552): the first pod without
the controller-revision-hash label ends the scan with false; a pod whose
label differs from the update revision ends it with true; otherwise the
scan continues. -/
def scanPumpPodsUpgrading (updateRevision : String) : List PumpPod → Bool
  | [] => false
  | p :: rest =>
      match p.revisionLabel with
      | none => false
      | some h => if h != updateRevision then true else scanPumpPodsUpgrading updateRevision rest

/-- Embedding of pumpStatefulSetIsUpgrading (part_000 lines 529-554): true
immediately when the StatefulSet status indicates an in-flight update,
otherwise the pod scan; a selector or listing failure (podsResult = none) is
an error. -/
def pumpStatefulSetIsUpgrading (statusUpgrading : Bool)
    (podsResult : Option (List PumpPod)) (updateRevision : String) : Except String Bool :=
  if statusUpgrading then Except.ok true
  else
    match podsResult with
    | none => Except.error "pumpStatefulSetIsUpgrading: failed to list pods"
    | some pods => Except.ok (scanPumpPodsUpgrading updateRevision pods)

/-- Embedding of syncTiDBClusterStatus of the pump manager (part_000 lines
159-192).  Returns the error value together with the pump phase now recorded
in tc.Status (the phase is written before the binlog client is built, so it
is updated even when the later calls fail); with no observed set the
function returns nil at once and the phase is unchanged. -/
def syncTiDBClusterStatus (env : PumpEnv) (tc : TidbCluster)
    (obs : Option PumpStsObserved) : OpResult × MemberPhase :=
  match obs with
  | none => (OpResult.ok, tc.pumpPhase)
  | some o =>
      match pumpStatefulSetIsUpgrading o.statusUpgrading env.pumpPods o.statusUpdateRevision with
      | Except.error e => (OpResult.err e, tc.pumpPhase)
      | Except.ok upgrading =>
          let phase := if upgrading then MemberPhase.upgrade else MemberPhase.normal
          match env.binlogBuildErr with
          | some e => (OpResult.err e, phase)
          | none =>
              match env.binlogMembers with
              | Except.error e => (OpResult.err e, phase)
              | Except.ok _ => (OpResult.ok, phase)

/-- Embedding of getNewPumpStatefulSet (part_000 lines 322-479).  The two
fallible inputs are ParseStorageRequest and the start-script rendering; each
failure is wrapped into a plain (non-requeue) configuration error exactly as
the fmt.Errorf calls do.  The pod/volume construction carries no control
flow, so the built set records the parsed storage and script in its
template. -/
def getNewPumpStatefulSet (env : PumpEnv) (tc : TidbCluster) : Except String StatefulSet :=
  match env.parseStorage with
  | Except.error e => Except.error ("cannot parse storage request for pump, error: " ++ e)
  | Except.ok storage =>
      match env.startScript with
      | Except.error e => Except.error ("cannot render start-script for pump, error: " ++ e)
      | Except.ok script =>
          Except.ok { replicas := tc.pumpReplicas, deleteSlots := [],
                      strategyType := StrategyType.rollingUpdate,
                      rollingUpdatePartition := none,
                      templateSpec := "pump:" ++ storage ++ ":" ++ script,
                      lastAppliedPodSpec := none }

/-- Control-plane writes the pump sync pass can perform, in order. -/
inductive PumpAction
  | setLastApplied
  | createSts
  | scale
  | updateSts
deriving DecidableEq, Repr

/-- Outcome of one pump sync pass: its returned error, the pump phase now in
tc.Status, and the writes performed. -/
structure PumpSyncOutcome where
  result : OpResult
  pumpPhase : MemberPhase
  actions : List PumpAction
deriving DecidableEq, Repr

/-- The part of syncPumpStatefulSetForTidbCluster after the lister lookup
(part_000 lines 85-128): status sync, paused short-circuit, config-map sync,
building the new set, then either the creation branch (absent set: annotate
and create synchronously, return) or the existing-set branch (scale, then
the upgrade-wait gate, then the StatefulSet update). -/
def syncPumpAfterLookup (env : PumpEnv) (tc : TidbCluster)
    (obs : Option PumpStsObserved) : PumpSyncOutcome :=
  match syncTiDBClusterStatus env tc obs with
  | (OpResult.err e, phase) => { result := OpResult.err e, pumpPhase := phase, actions := [] }
  | (OpResult.requeue e, phase) =>
      { result := OpResult.requeue e, pumpPhase := phase, actions := [] }
  | (OpResult.ok, phase) =>
      if tc.paused then { result := OpResult.ok, pumpPhase := phase, actions := [] }
      else
        match env.configMap with
        | Except.error e => { result := OpResult.err e, pumpPhase := phase, actions := [] }
        | Except.ok _ =>
            match getNewPumpStatefulSet env tc with
            | Except.error e => { result := OpResult.err e, pumpPhase := phase, actions := [] }
            | Except.ok _newSet =>
                match obs with
                | none =>
                    if env.annotationOk then
                      match env.createErr with
                      | some e =>
                          { result := OpResult.err e, pumpPhase := phase,
                            actions := [PumpAction.setLastApplied, PumpAction.createSts] }
                      | none =>
                          { result := OpResult.ok, pumpPhase := phase,
                            actions := [PumpAction.setLastApplied, PumpAction.createSts] }
                    else
                      { result := OpResult.err "SetStatefulSetLastAppliedConfigAnnotation failed",
                        pumpPhase := phase, actions := [] }
                | some _o =>
                    match env.scaleErr with
                    | some e =>
                        { result := OpResult.err e, pumpPhase := phase,
                          actions := [PumpAction.scale] }
                    | none =>
                        if tc.ticdcPhase == MemberPhase.upgrade
                            || tc.tiflashPhase == MemberPhase.upgrade
                            || tc.pd.phase == MemberPhase.upgrade
                            || tc.tikvPhase == MemberPhase.upgrade then
                          { result := OpResult.ok, pumpPhase := phase,
                            actions := [PumpAction.scale] }
                        else
                          match env.updateErr with
                          | some e =>
                              { result := OpResult.err e, pumpPhase := phase,
                                actions := [PumpAction.scale, PumpAction.updateSts] }
                          | none =>
                              { result := OpResult.ok, pumpPhase := phase,
                                actions := [PumpAction.scale, PumpAction.updateSts] }

/-- Embedding of syncPumpStatefulSetForTidbCluster (part_000 lines 77-129):
a lister error other than IsNotFound aborts the pass; otherwise the rest of
the pass runs with the observed set (none when IsNotFound). -/
def syncPumpStatefulSetForTidbCluster (env : PumpEnv) (tc : TidbCluster) : PumpSyncOutcome :=
  match env.stsLookup with
  | PumpLookup.lookupErr e =>
      { result := OpResult.err ("syncPumpStatefulSetForTidbCluster: failed to get sts, error: " ++ e),
        pumpPhase := tc.pumpPhase, actions := [] }
  | PumpLookup.notFound => syncPumpAfterLookup env tc none
  | PumpLookup.found o => syncPumpAfterLookup env tc (some o)

/-- The status fields of a BackupSchedule read by getLastScheduledTime;
times are modelled as natural numbers. -/
structure BackupScheduleStatus where
  lastBackupTime : Option Nat
  allBackupCleanTime : Option Nat
  creationTimestamp : Nat
deriving DecidableEq, Repr

/-- Reference-time selection of getLastScheduledTime
(backup_schedule_manager.go lines 138-152): the last backup time, else the
all-backup-clean time, else the creation timestamp. -/
def bsEarliestTime (st : BackupScheduleStatus) : Nat :=
  match st.lastBackupTime with
  | some t => t
  | none =>
      match st.allBackupCleanTime with
      | some t => t
      | none => st.creationTimestamp

/-- Exit of the missed-schedule loop: the cap was hit on the
pause-recovery branch, the cap was hit on the plain branch, or the loop ran
past now with the accumulated scheduled times. -/
inductive MissedOut
  | capRecovery
  | capDrop
  | times (acc : List Nat)
deriving DecidableEq, Repr

/-- The catch-up loop of getLastScheduledTime (backup_schedule_manager.go
lines 163-186): starting at t, while t is not after now, append t and stop
as soon as more than 100 times have accumulated; the branch taken at the cap
depends on the recovery flag (LastBackupTime nil and AllBackupCleanTime
non-nil).  Every iteration appends, so the loop always exits within 101
iterations; the fuel argument is a structural bound, and with fuel of at
least 102 the fuel-exhaustion case is unreachable. -/
def missedLoop (next : Nat → Nat) (now : Nat) (recovery : Bool) :
    Nat → Nat → List Nat → MissedOut
  | 0, _, acc => MissedOut.times acc
  | fuel + 1, t, acc =>
      if now < t then MissedOut.times acc
      else
        let acc' := acc ++ [t]
        if 100 < acc'.length then
          if recovery then MissedOut.capRecovery else MissedOut.capDrop
        else missedLoop next now recovery fuel (next t) acc'

/-- Everything a getLastScheduledTime call produces: the returned time, the
returned error value, and the AllBackupCleanTime field of the schedule
status after the call (mutated only on the pause-recovery cap branch). -/
structure GLSTResult where
  time : Option Nat
  result : OpResult
  newAllBackupCleanTime : Option Nat
deriving DecidableEq, Repr

/-- Embedding of getLastScheduledTime (backup_schedule_manager.go lines
129-192), parameterized by the parsed cron schedule as its next-time
function (cron parsing itself is out of scope of the claims).  A reference
time in the future returns nil time and nil error; the loop collects missed
times from next(earliest); past the 100 cap the pause-recovery branch
refreshes AllBackupCleanTime to now and returns a requeue error, the plain
branch returns nil time and nil error; otherwise the last collected time, if
any, is returned. -/
def getLastScheduledTime (next : Nat → Nat) (st : BackupScheduleStatus)
    (now : Nat) : GLSTResult :=
  let earliestTime := bsEarliestTime st
  if now < earliestTime then
    { time := none, result := OpResult.ok, newAllBackupCleanTime := st.allBackupCleanTime }
  else
    let recovery := st.lastBackupTime.isNone && st.allBackupCleanTime.isSome
    match missedLoop next now recovery 102 (next earliestTime) [] with
    | MissedOut.capRecovery =>
        { time := none,
          result := OpResult.requeue "recovery backup schedule from pause status, refresh AllBackupCleanTime",
          newAllBackupCleanTime := some now }
    | MissedOut.capDrop =>
        { time := none, result := OpResult.ok, newAllBackupCleanTime := st.allBackupCleanTime }
    | MissedOut.times acc =>
        match acc.getLast? with
        | none =>
            { time := none, result := OpResult.ok,
              newAllBackupCleanTime := st.allBackupCleanTime }
        | some t =>
            { time := some t, result := OpResult.ok,
              newAllBackupCleanTime := st.allBackupCleanTime }

/-- The first k times of the schedule orbit starting at t: t, next t,
next (next t), and so on. -/
def schedOrbit (next : Nat → Nat) (t : Nat) : Nat → List Nat
  | 0 => []
  | k + 1 => t :: schedOrbit next (next t) k

/-- The leadership test of upgradePDPod: the recorded leader name equals the
member name or the pod name of the ordinal. -/
def leaderAt (tc : TidbCluster) (ordinal : Nat) : Bool :=
  tc.pd.leaderName == PdName tc.name ordinal tc.nspace tc.clusterDomain
    || tc.pd.leaderName == PdPodName tc.name ordinal

theorem upgradePDPod_pdPhase (env : PDEnv) (tc : TidbCluster) (ordinal : Nat)
    (newSet : StatefulSet) (phase : MemberPhase) :
    (upgradePDPod env tc ordinal newSet phase).pdPhase = phase := by
  simp only [upgradePDPod]
  repeat' split
  all_goals rfl

theorem upgradeLoop_pdPhase (env : PDEnv) (tc : TidbCluster) (ns : StatefulSet)
    (phase : MemberPhase) :
    ∀ l : List Nat, (upgradeLoop env tc ns phase l).pdPhase = phase := by
  intro l
  induction l with
  | nil => rfl
  | cons a rest ih =>
      unfold upgradeLoop
      repeat' split
      all_goals first
        | rfl
        | exact ih
        | exact upgradePDPod_pdPhase env tc a ns phase

/-- C9: whenever PD status is synced and the pass is not blocked,
gracefulUpgrade writes UpgradePhase into tc.Status.PD.Phase before the
template-equality and revision-drift checks, so the phase is Upgrading even
on a pass with no revision drift at all. -/
theorem c9_phase_set_unconditionally (env : PDEnv) (tc : TidbCluster)
    (oldSet newSet : StatefulSet)
    (hsync : tc.pd.synced = true)
    (hblock : (tc.ticdcPhase == MemberPhase.upgrade || PDScaling tc) = false) :
    (gracefulUpgrade env tc oldSet newSet).pdPhase = MemberPhase.upgrade := by
  simp only [gracefulUpgrade, hsync, hblock, Bool.not_true, Bool.false_eq_true,
    if_false, Bool.not_eq_true]
  repeat' split
  all_goals simp [upgradeLoop_pdPhase]

def c9Tc : TidbCluster :=
  { name := "db", nspace := "ns", clusterDomain := "", paused := false,
    pd := { synced := true, phase := MemberPhase.normal, currentRevision := "v1",
            updateRevision := "v1", stsReplicas := 3,
            members := fun _ => none, peerMembers := [], leaderName := "" },
    ticdcPhase := MemberPhase.normal, tiflashPhase := MemberPhase.normal,
    tikvPhase := MemberPhase.normal, pumpPhase := MemberPhase.normal, pumpReplicas := 0 }

def c9Env : PDEnv :=
  { pods := fun _ => none, podWebhookEnabled := false, transferLeader := fun _ => none }

def c9Set : StatefulSet :=
  { replicas := 3, deleteSlots := [], strategyType := StrategyType.rollingUpdate,
    rollingUpdatePartition := some 0, templateSpec := "T", lastAppliedPodSpec := some "T" }

/-- C9 witness: a pass with no revision drift at all (current equals update
revision) still ends with the PD phase marked Upgrading. -/
theorem c9_witness :
    c9Tc.pd.synced = true ∧
      (gracefulUpgrade c9Env c9Tc c9Set c9Set).pdPhase = MemberPhase.upgrade :=
  ⟨by decide, c9_phase_set_unconditionally c9Env c9Tc c9Set c9Set (by decide) (by decide)⟩

/-- C4: with PD synced, whenever the pass is blocked (TiCDC upgrading or PD
mid-scale) and the old set's last-applied configuration yields a pod spec,
gracefulUpgrade replaces only the pod template spec of newSet with that
recovered spec and returns nil: the partition cursor and every other field
of newSet are unchanged, no transfer is issued, no cursor set, and the PD
phase is left as it was. -/
theorem c4_blocked_freeze (env : PDEnv) (tc : TidbCluster) (oldSet newSet : StatefulSet)
    (podSpec : String)
    (hsync : tc.pd.synced = true)
    (hblock : tc.ticdcPhase = MemberPhase.upgrade ∨ PDScaling tc = true)
    (hla : oldSet.lastAppliedPodSpec = some podSpec) :
    gracefulUpgrade env tc oldSet newSet =
      { result := OpResult.ok, newSet := { newSet with templateSpec := podSpec },
        pdPhase := tc.pd.phase, transfers := [], cursorSets := [] } := by
  have hb : (tc.ticdcPhase == MemberPhase.upgrade || PDScaling tc) = true := by
    rcases hblock with h | h
    · simp [h]
    · simp [h]
  simp [gracefulUpgrade, hsync, hb, hla]

def c4Tc : TidbCluster :=
  { name := "db", nspace := "ns", clusterDomain := "", paused := false,
    pd := { synced := true, phase := MemberPhase.normal, currentRevision := "v1",
            updateRevision := "v2", stsReplicas := 3,
            members := fun _ => none, peerMembers := [], leaderName := "" },
    ticdcPhase := MemberPhase.upgrade, tiflashPhase := MemberPhase.normal,
    tikvPhase := MemberPhase.normal, pumpPhase := MemberPhase.normal, pumpReplicas := 0 }

def c4Env : PDEnv :=
  { pods := fun _ => none, podWebhookEnabled := false, transferLeader := fun _ => none }

def c4OldSet : StatefulSet :=
  { replicas := 3, deleteSlots := [], strategyType := StrategyType.rollingUpdate,
    rollingUpdatePartition := some 2, templateSpec := "Told", lastAppliedPodSpec := some "S" }

def c4NewSet : StatefulSet :=
  { replicas := 3, deleteSlots := [], strategyType := StrategyType.rollingUpdate,
    rollingUpdatePartition := some 2, templateSpec := "Tnew", lastAppliedPodSpec := none }

/-- C4 witness: a concrete blocked pass freezes the template and leaves the
cursor where it was. -/
theorem c4_witness :
    (c4Tc.ticdcPhase = MemberPhase.upgrade ∨ PDScaling c4Tc = true) ∧
      gracefulUpgrade c4Env c4Tc c4OldSet c4NewSet =
        { result := OpResult.ok, newSet := { c4NewSet with templateSpec := "S" },
          pdPhase := c4Tc.pd.phase, transfers := [], cursorSets := [] } :=
  ⟨Or.inl rfl, c4_blocked_freeze c4Env c4Tc c4OldSet c4NewSet "S" (by decide)
    (Or.inl rfl) rfl⟩

/-- C5: once a pass reaches the strategy check (synced, not blocked,
templates equal, revision drift present), an externally modified update
strategy on the old set (OnDelete type, or nil RollingUpdate) makes
gracefulUpgrade copy the old update strategy into newSet verbatim and return
nil: no error, no cursor set, no transfer, no rollout driving. -/
theorem c5_manual_override (env : PDEnv) (tc : TidbCluster) (oldSet newSet : StatefulSet)
    (hsync : tc.pd.synced = true)
    (hblock : (tc.ticdcPhase == MemberPhase.upgrade || PDScaling tc) = false)
    (hteq : templateEqual newSet oldSet = true)
    (hdrift : (tc.pd.updateRevision == tc.pd.currentRevision) = false)
    (hman : oldSet.strategyType = StrategyType.onDelete ∨
      oldSet.rollingUpdatePartition = none) :
    gracefulUpgrade env tc oldSet newSet =
      { result := OpResult.ok,
        newSet := { newSet with strategyType := oldSet.strategyType,
                                rollingUpdatePartition := oldSet.rollingUpdatePartition },
        pdPhase := MemberPhase.upgrade, transfers := [], cursorSets := [] } := by
  rcases hman with h | h
  · simp [gracefulUpgrade, hsync, hblock, hteq, hdrift, h]
  · by_cases hod : oldSet.strategyType = StrategyType.onDelete
    · simp [gracefulUpgrade, hsync, hblock, hteq, hdrift, hod]
    · have hod' : (oldSet.strategyType == StrategyType.onDelete) = false := by
        simp [hod]
      simp [gracefulUpgrade, hsync, hblock, hteq, hdrift, hod', h]

def c5Tc : TidbCluster :=
  { name := "db", nspace := "ns", clusterDomain := "", paused := false,
    pd := { synced := true, phase := MemberPhase.normal, currentRevision := "v1",
            updateRevision := "v2", stsReplicas := 3,
            members := fun _ => none, peerMembers := [], leaderName := "" },
    ticdcPhase := MemberPhase.normal, tiflashPhase := MemberPhase.normal,
    tikvPhase := MemberPhase.normal, pumpPhase := MemberPhase.normal, pumpReplicas := 0 }

def c5Env : PDEnv :=
  { pods := fun _ => none, podWebhookEnabled := false, transferLeader := fun _ => none }

def c5OldSet : StatefulSet :=
  { replicas := 3, deleteSlots := [], strategyType := StrategyType.onDelete,
    rollingUpdatePartition := none, templateSpec := "T", lastAppliedPodSpec := some "T" }

def c5NewSet : StatefulSet :=
  { replicas := 3, deleteSlots := [], strategyType := StrategyType.rollingUpdate,
    rollingUpdatePartition := some 3, templateSpec := "T", lastAppliedPodSpec := none }

/-- C5 witness: a concrete manually-overridden strategy is copied verbatim
and the pass returns nil without driving the rollout. -/
theorem c5_witness :
    templateEqual c5NewSet c5OldSet = true ∧
      gracefulUpgrade c5Env c5Tc c5OldSet c5NewSet =
        { result := OpResult.ok,
          newSet := { c5NewSet with strategyType := c5OldSet.strategyType,
                                      rollingUpdatePartition := c5OldSet.rollingUpdatePartition },
          pdPhase := MemberPhase.upgrade, transfers := [], cursorSets := [] } :=
  ⟨by decide, c5_manual_override c5Env c5Tc c5OldSet c5NewSet (by decide) (by decide)
    (by decide) (by decide) (Or.inl rfl)⟩

theorem liveOrdinals_pairwise (replicas : Nat) (deleteSlots : List Nat) :
    (liveOrdinals replicas deleteSlots).Pairwise (· < ·) :=
  ((List.pairwise_lt_range _).filter _).sublist (List.take_sublist _ _)

theorem liveOrdinals_reverse_pairwise (replicas : Nat) (deleteSlots : List Nat) :
    (liveOrdinals replicas deleteSlots).reverse.Pairwise (· > ·) := by
  rw [List.pairwise_reverse]
  exact liveOrdinals_pairwise replicas deleteSlots

theorem PdPodName_length_pos (tcName : String) (ordinal : Nat) :
    0 < (PdPodName tcName ordinal).length := by
  unfold PdPodName
  rw [String.length_append, String.length_append]
  have h4 : ("-pd-" : String).length = 4 := by decide
  omega

theorem PdName_length_pos (tcName : String) (ordinal : Nat) (nspace clusterDomain : String) :
    0 < (PdName tcName ordinal nspace clusterDomain).length := by
  unfold PdName
  split
  · rw [String.length_append]
    have := PdPodName_length_pos tcName ordinal
    rw [String.length_append, String.length_append, String.length_append,
      String.length_append] at *
    omega
  · exact PdPodName_length_pos tcName ordinal

theorem pdUpgradeTarget_setUpgradePartition (tc : TidbCluster) (ordinal : Nat)
    (s : StatefulSet) (p : Nat) :
    pdUpgradeTarget tc ordinal (setUpgradePartition s p) = pdUpgradeTarget tc ordinal s := rfl

/-- With more than one actual PD replica the target selection always
produces a nonempty name: it resolves to a member name or falls back to a
pod name, both nonempty. -/
theorem pdUpgradeTarget_pos_of_replicas (tc : TidbCluster) (ordinal : Nat)
    (newSet : StatefulSet) (hrep : PDStsActualReplicas tc > 1) :
    0 < (pdUpgradeTarget tc ordinal newSet).length := by
  simp only [pdUpgradeTarget]
  rw [if_pos hrep]
  split
  · exact PdName_length_pos ..
  · exact PdPodName_length_pos ..

/-- Walk invariant of the per-ordinal loop: over a strictly descending
ordinal list, any ordinal the loop passes to setUpgradePartition is in the
list, its pod exists and is revision-mismatched, every listed ordinal above
it already carries the update revision with a healthy member record, and —
when the webhook is disabled — it can only be the leader if the transfer
target selection came up empty. -/
theorem upgradeLoop_cursor_spec (env : PDEnv) (tc : TidbCluster) (ns : StatefulSet)
    (phase : MemberPhase) :
    ∀ l : List Nat, l.Pairwise (· > ·) →
      ∀ i, i ∈ (upgradeLoop env tc ns phase l).cursorSets →
        i ∈ l ∧
        (∃ pod rev, env.pods (PdPodName tc.name i) = some pod ∧
          pod.revisionLabel = some rev ∧ (rev == tc.pd.updateRevision) = false) ∧
        (∀ j ∈ l, i < j →
          (∃ pod, env.pods (PdPodName tc.name j) = some pod ∧
            pod.revisionLabel = some tc.pd.updateRevision) ∧
          (∃ m, tc.pd.members (PdName tc.name j tc.nspace tc.clusterDomain) = some m ∧
            m.health = true)) ∧
        (env.podWebhookEnabled = false → leaderAt tc i = true →
          (pdUpgradeTarget tc i ns).length = 0) := by
  intro l
  induction l with
  | nil => intro _ i hi; simp [upgradeLoop] at hi
  | cons a rest ih =>
      intro hpw i hi
      rw [List.pairwise_cons] at hpw
      obtain ⟨hgt, hrest⟩ := hpw
      cases hpod : env.pods (PdPodName tc.name a) with
      | none => simp [upgradeLoop, hpod] at hi
      | some pod =>
          cases hlab : pod.revisionLabel with
          | none => simp [upgradeLoop, hpod, hlab] at hi
          | some rev =>
              by_cases hrev : (rev == tc.pd.updateRevision) = true
              · cases hm : tc.pd.members (PdName tc.name a tc.nspace tc.clusterDomain) with
                | none => simp [upgradeLoop, hpod, hlab, hrev, hm] at hi
                | some m =>
                    by_cases hh : m.health = true
                    · have hi' : i ∈ (upgradeLoop env tc ns phase rest).cursorSets := by
                        simpa [upgradeLoop, hpod, hlab, hrev, hm, hh] using hi
                      obtain ⟨h1, h2, h3, h4⟩ := ih hrest i hi'
                      refine ⟨List.mem_cons_of_mem a h1, h2, ?_, h4⟩
                      intro j hj hij
                      rcases List.mem_cons.mp hj with rfl | hj'
                      · refine ⟨⟨pod, hpod, ?_⟩, ⟨m, hm, hh⟩⟩
                        rw [hlab]
                        exact congrArg some (eq_of_beq hrev)
                      · exact h3 j hj' hij
                    · simp [upgradeLoop, hpod, hlab, hrev, hm, hh] at hi
              · have hrev' : (rev == tc.pd.updateRevision) = false := by
                  simpa using hrev
                by_cases hweb : env.podWebhookEnabled = true
                · have hia : i = a := by
                    simpa [upgradeLoop, hpod, hlab, hrev', hweb] using hi
                  subst hia
                  refine ⟨List.mem_cons_self i rest, ⟨pod, rev, hpod, hlab, hrev'⟩, ?_, ?_⟩
                  · intro j hj hij
                    rcases List.mem_cons.mp hj with rfl | hj'
                    · exact absurd hij (lt_irrefl j)
                    · have := hgt j hj'
                      exact absurd hij (by omega)
                  · intro hw _
                    rw [hweb] at hw
                    exact absurd hw (by simp)
                · have hweb' : env.podWebhookEnabled = false := by
                    simpa using hweb
                  have hi' : i ∈ (upgradePDPod env tc a ns phase).cursorSets := by
                    simpa [upgradeLoop, hpod, hlab, hrev', hweb'] using hi
                  by_cases hl : (tc.pd.leaderName == PdName tc.name a tc.nspace tc.clusterDomain
                      || tc.pd.leaderName == PdPodName tc.name a) = true
                  · by_cases htn : 0 < (pdUpgradeTarget tc a ns).length
                    · exfalso
                      cases htr : env.transferLeader (pdUpgradeTarget tc a ns) with
                      | none => simp [upgradePDPod, hl, htn, htr] at hi'
                      | some e => simp [upgradePDPod, hl, htn, htr] at hi'
                    · have hia : i = a := by
                        simpa [upgradePDPod, hl, htn] using hi'
                      subst hia
                      refine ⟨List.mem_cons_self i rest, ⟨pod, rev, hpod, hlab, hrev'⟩, ?_, ?_⟩
                      · intro j hj hij
                        rcases List.mem_cons.mp hj with rfl | hj'
                        · exact absurd hij (lt_irrefl j)
                        · have := hgt j hj'
                          exact absurd hij (by omega)
                      · intro _ _
                        omega
                  · have hl' : (tc.pd.leaderName == PdName tc.name a tc.nspace tc.clusterDomain
                        || tc.pd.leaderName == PdPodName tc.name a) = false := by
                      simpa using hl
                    have hia : i = a := by
                      simpa [upgradePDPod, hl'] using hi'
                    subst hia
                    refine ⟨List.mem_cons_self i rest, ⟨pod, rev, hpod, hlab, hrev'⟩, ?_, ?_⟩
                    · intro j hj hij
                      rcases List.mem_cons.mp hj with rfl | hj'
                      · exact absurd hij (lt_irrefl j)
                      · have := hgt j hj'
                        exact absurd hij (by omega)
                    · intro _ hla
                      simp [leaderAt, hl'] at hla

/-- Shape of the setUpgradePartition calls a gracefulUpgrade pass makes:
either none at all, or first the copy of the old partition and then whatever
the descending walk does. -/
theorem gracefulUpgrade_cursor_shape (env : PDEnv) (tc : TidbCluster)
    (oldSet newSet : StatefulSet) :
    (gracefulUpgrade env tc oldSet newSet).cursorSets = [] ∨
      ∃ oldP, oldSet.rollingUpdatePartition = some oldP ∧
        (gracefulUpgrade env tc oldSet newSet).cursorSets =
          oldP :: (upgradeLoop env tc (setUpgradePartition newSet oldP) MemberPhase.upgrade
            ((liveOrdinals oldSet.replicas oldSet.deleteSlots).reverse)).cursorSets := by
  simp only [gracefulUpgrade]
  repeat' split
  all_goals first
    | exact Or.inl rfl
    | (rename_i oldP heq; exact Or.inr ⟨oldP, heq, rfl⟩)

def c2Tc : TidbCluster :=
  { name := "db", nspace := "ns", clusterDomain := "", paused := false,
    pd := { synced := true, phase := MemberPhase.normal, currentRevision := "v1",
            updateRevision := "v2", stsReplicas := 5,
            members := fun s =>
              if ["db-pd-0", "db-pd-1", "db-pd-2", "db-pd-3", "db-pd-4"].contains s then
                some { name := s, health := true }
              else none,
            peerMembers := [], leaderName := "" },
    ticdcPhase := MemberPhase.normal, tiflashPhase := MemberPhase.normal,
    tikvPhase := MemberPhase.normal, pumpPhase := MemberPhase.normal, pumpReplicas := 0 }

/-- Pod lister of pass j of the C2 scenario: ordinals above j already carry
the update revision, ordinals up to j still the old one. -/
def c2Pods (j : Nat) : String → Option Pod := fun s =>
  (List.range 5).findSome? fun k =>
    if s = PdPodName "db" k then
      some { revisionLabel := some (if j < k then "v2" else "v1") }
    else none

def c2PassEnv (j : Nat) : PDEnv :=
  { pods := c2Pods j, podWebhookEnabled := false, transferLeader := fun _ => none }

def c2OldSet (j : Nat) : StatefulSet :=
  { replicas := 5, deleteSlots := [], strategyType := StrategyType.rollingUpdate,
    rollingUpdatePartition := some (j + 1), templateSpec := "T",
    lastAppliedPodSpec := some "T" }

def c2NewSet : StatefulSet :=
  { replicas := 5, deleteSlots := [], strategyType := StrategyType.rollingUpdate,
    rollingUpdatePartition := some 5, templateSpec := "T", lastAppliedPodSpec := none }

/-- C2: live ordinals are walked from highest to lowest — beyond the
carried-over copy of the old partition, the cursor is set to an ordinal i
only when i is live and revision-mismatched and every live ordinal above i
already carries the update revision with a healthy member record; and in the
five-ordinal all-mismatched scenario the cursor advances 4, 3, 2, 1, 0, one
ordinal per completed-and-healthy pass. -/
theorem c2_descending_one_step :
    (∀ (env : PDEnv) (tc : TidbCluster) (oldSet newSet : StatefulSet) (i : Nat),
      i ∈ (gracefulUpgrade env tc oldSet newSet).cursorSets.tail →
      i ∈ liveOrdinals oldSet.replicas oldSet.deleteSlots ∧
      (∃ pod rev, env.pods (PdPodName tc.name i) = some pod ∧
        pod.revisionLabel = some rev ∧ (rev == tc.pd.updateRevision) = false) ∧
      (∀ j ∈ liveOrdinals oldSet.replicas oldSet.deleteSlots, i < j →
        (∃ pod, env.pods (PdPodName tc.name j) = some pod ∧
          pod.revisionLabel = some tc.pd.updateRevision) ∧
        (∃ m, tc.pd.members (PdName tc.name j tc.nspace tc.clusterDomain) = some m ∧
          m.health = true))) ∧
    (∀ j, j < 5 →
      (gracefulUpgrade (c2PassEnv j) c2Tc (c2OldSet j) c2NewSet).result = OpResult.ok ∧
      (gracefulUpgrade (c2PassEnv j) c2Tc (c2OldSet j) c2NewSet).cursorSets = [j + 1, j] ∧
      (gracefulUpgrade (c2PassEnv j) c2Tc (c2OldSet j) c2NewSet).newSet.rollingUpdatePartition
        = some j) := by
  constructor
  · intro env tc oldSet newSet i hi
    rcases gracefulUpgrade_cursor_shape env tc oldSet newSet with hsh | ⟨oldP, _, hsh⟩
    · rw [hsh] at hi
      simp at hi
    · rw [hsh] at hi
      simp only [List.tail_cons] at hi
      obtain ⟨h1, h2, h3, _⟩ := upgradeLoop_cursor_spec env tc
        (setUpgradePartition newSet oldP) MemberPhase.upgrade
        ((liveOrdinals oldSet.replicas oldSet.deleteSlots).reverse)
        (liveOrdinals_reverse_pairwise _ _) i hi
      refine ⟨List.mem_reverse.mp h1, h2, ?_⟩
      intro j hj hij
      exact h3 j (List.mem_reverse.mpr hj) hij
  · decide

/-- C2 witness: in the first scenario pass the loop sets the cursor to 4,
and the general statement certifies 4 as a live ordinal of the old set. -/
theorem c2_witness :
    4 ∈ (gracefulUpgrade (c2PassEnv 4) c2Tc (c2OldSet 4) c2NewSet).cursorSets.tail ∧
      4 ∈ liveOrdinals (c2OldSet 4).replicas (c2OldSet 4).deleteSlots :=
  ⟨by decide,
    (c2_descending_one_step.1 (c2PassEnv 4) c2Tc (c2OldSet 4) c2NewSet 4 (by decide)).1⟩

def c1Tc : TidbCluster :=
  { name := "db", nspace := "ns", clusterDomain := "", paused := false,
    pd := { synced := true, phase := MemberPhase.normal, currentRevision := "v1",
            updateRevision := "v2", stsReplicas := 1,
            members := fun s =>
              if s = "db-pd-0" then some { name := "db-pd-0", health := true } else none,
            peerMembers := [], leaderName := "db-pd-0" },
    ticdcPhase := MemberPhase.normal, tiflashPhase := MemberPhase.normal,
    tikvPhase := MemberPhase.normal, pumpPhase := MemberPhase.normal, pumpReplicas := 0 }

def c1Env : PDEnv :=
  { pods := fun s => if s = "db-pd-0" then some { revisionLabel := some "v1" } else none,
    podWebhookEnabled := true, transferLeader := fun _ => none }

def c1OldSet : StatefulSet :=
  { replicas := 1, deleteSlots := [], strategyType := StrategyType.rollingUpdate,
    rollingUpdatePartition := some 1, templateSpec := "T", lastAppliedPodSpec := some "T" }

def c1NewSet : StatefulSet :=
  { replicas := 1, deleteSlots := [], strategyType := StrategyType.rollingUpdate,
    rollingUpdatePartition := some 1, templateSpec := "T", lastAppliedPodSpec := none }

/-- C1 counterexample: on the pod-webhook-enabled branch, a live,
revision-mismatched ordinal that holds PD leadership gets the partition
cursor set to it while no leadership transfer was ever issued — the claimed
leader-safety does not hold on every branch. -/
theorem c1_counterexample :
    (c1Tc.pd.leaderName == PdPodName c1Tc.name 0) = true ∧
    0 ∈ liveOrdinals c1OldSet.replicas c1OldSet.deleteSlots ∧
    c1Env.pods (PdPodName c1Tc.name 0) = some { revisionLabel := some "v1" } ∧
    ("v1" == c1Tc.pd.updateRevision) = false ∧
    0 ∈ (gracefulUpgrade c1Env c1Tc c1OldSet c1NewSet).cursorSets ∧
    (gracefulUpgrade c1Env c1Tc c1OldSet c1NewSet).newSet.rollingUpdatePartition = some 0 ∧
    (gracefulUpgrade c1Env c1Tc c1OldSet c1NewSet).transfers = [] := by
  decide

/-- C1 as amended: with the pod webhook disabled and a transfer candidate
found (nonempty target), upgradePDPod on a leader ordinal issues the
transfer and halts — requeue on observed success, error propagation on
failure — without any setUpgradePartition call and without touching newSet;
and at the gracefulUpgrade level, with the webhook disabled the walk can set
the cursor to a leader ordinal only when the target selection is empty.  (On
the webhook branch and the empty-target branch the cursor is set without a
transfer.) -/
theorem c1_leader_safety_amended :
    (∀ (env : PDEnv) (tc : TidbCluster) (ordinal : Nat) (newSet : StatefulSet)
        (phase : MemberPhase),
      leaderAt tc ordinal = true →
      0 < (pdUpgradeTarget tc ordinal newSet).length →
      (upgradePDPod env tc ordinal newSet phase).cursorSets = [] ∧
      (upgradePDPod env tc ordinal newSet phase).newSet = newSet ∧
      (upgradePDPod env tc ordinal newSet phase).transfers
        = [pdUpgradeTarget tc ordinal newSet] ∧
      (env.transferLeader (pdUpgradeTarget tc ordinal newSet) = none →
        (upgradePDPod env tc ordinal newSet phase).result
          = OpResult.requeue "pd member is transferring leader") ∧
      (∀ e, env.transferLeader (pdUpgradeTarget tc ordinal newSet) = some e →
        (upgradePDPod env tc ordinal newSet phase).result = OpResult.err e)) ∧
    (∀ (env : PDEnv) (tc : TidbCluster) (oldSet newSet : StatefulSet) (k : Nat),
      env.podWebhookEnabled = false →
      leaderAt tc k = true →
      k ∈ (gracefulUpgrade env tc oldSet newSet).cursorSets.tail →
      (pdUpgradeTarget tc k newSet).length = 0) := by
  constructor
  · intro env tc ordinal newSet phase hl htn
    have hl' : (tc.pd.leaderName == PdName tc.name ordinal tc.nspace tc.clusterDomain
        || tc.pd.leaderName == PdPodName tc.name ordinal) = true := hl
    cases htr : env.transferLeader (pdUpgradeTarget tc ordinal newSet) with
    | none => refine ⟨?_, ?_, ?_, ?_, ?_⟩ <;> simp [upgradePDPod, hl', htn, htr]
    | some e => refine ⟨?_, ?_, ?_, ?_, ?_⟩ <;> simp [upgradePDPod, hl', htn, htr]
  · intro env tc oldSet newSet k hweb hl hk
    rcases gracefulUpgrade_cursor_shape env tc oldSet newSet with hsh | ⟨oldP, _, hsh⟩
    · rw [hsh] at hk
      simp at hk
    · rw [hsh] at hk
      simp only [List.tail_cons] at hk
      have h := (upgradeLoop_cursor_spec env tc (setUpgradePartition newSet oldP)
        MemberPhase.upgrade ((liveOrdinals oldSet.replicas oldSet.deleteSlots).reverse)
        (liveOrdinals_reverse_pairwise _ _) k hk).2.2.2 hweb hl
      rwa [pdUpgradeTarget_setUpgradePartition] at h

def c1wTc : TidbCluster :=
  { name := "db", nspace := "ns", clusterDomain := "", paused := false,
    pd := { synced := true, phase := MemberPhase.normal, currentRevision := "v1",
            updateRevision := "v2", stsReplicas := 2,
            members := fun s =>
              if ["db-pd-0", "db-pd-1"].contains s then some { name := s, health := true }
              else none,
            peerMembers := [], leaderName := "db-pd-0" },
    ticdcPhase := MemberPhase.normal, tiflashPhase := MemberPhase.normal,
    tikvPhase := MemberPhase.normal, pumpPhase := MemberPhase.normal, pumpReplicas := 0 }

def c1wEnv : PDEnv :=
  { pods := fun _ => none, podWebhookEnabled := false, transferLeader := fun _ => none }

def c1wSet : StatefulSet :=
  { replicas := 2, deleteSlots := [], strategyType := StrategyType.rollingUpdate,
    rollingUpdatePartition := some 2, templateSpec := "T", lastAppliedPodSpec := none }

/-- C1 witness: with two replicas the leader ordinal has a nonempty transfer
target and the pass makes no setUpgradePartition call. -/
theorem c1_witness :
    (leaderAt c1wTc 0 = true ∧ 0 < (pdUpgradeTarget c1wTc 0 c1wSet).length) ∧
      (upgradePDPod c1wEnv c1wTc 0 c1wSet MemberPhase.upgrade).cursorSets = [] :=
  ⟨⟨by decide, by decide⟩,
    (c1_leader_safety_amended.1 c1wEnv c1wTc 0 c1wSet MemberPhase.upgrade
      (by decide) (by decide)).1⟩

def c3Tc : TidbCluster :=
  { name := "db", nspace := "ns", clusterDomain := "", paused := false,
    pd := { synced := true, phase := MemberPhase.normal, currentRevision := "v1",
            updateRevision := "v2", stsReplicas := 1,
            members := fun s =>
              if s = "db-pd-0" then some { name := "db-pd-0", health := true } else none,
            peerMembers := [], leaderName := "db-pd-0" },
    ticdcPhase := MemberPhase.normal, tiflashPhase := MemberPhase.normal,
    tikvPhase := MemberPhase.normal, pumpPhase := MemberPhase.normal, pumpReplicas := 0 }

def c3Env : PDEnv :=
  { pods := fun s => if s = "db-pd-0" then some { revisionLabel := some "v1" } else none,
    podWebhookEnabled := false, transferLeader := fun _ => none }

def c3NewSet : StatefulSet :=
  { replicas := 1, deleteSlots := [], strategyType := StrategyType.rollingUpdate,
    rollingUpdatePartition := some 1, templateSpec := "T", lastAppliedPodSpec := none }

/-- C3 counterexample: a single-replica leader ordinal with no healthy peer
member yields an empty transfer target, and upgradePDPod then sets the
partition cursor to that ordinal and returns nil — it does not fail with a
retryable error. -/
theorem c3_counterexample :
    (c3Tc.pd.leaderName == PdPodName c3Tc.name 0) = true ∧
    (pdUpgradeTarget c3Tc 0 c3NewSet).length = 0 ∧
    (upgradePDPod c3Env c3Tc 0 c3NewSet MemberPhase.upgrade).result = OpResult.ok ∧
    (upgradePDPod c3Env c3Tc 0 c3NewSet MemberPhase.upgrade).newSet.rollingUpdatePartition
      = some 0 ∧
    (upgradePDPod c3Env c3Tc 0 c3NewSet MemberPhase.upgrade).transfers = [] := by
  decide

/-- C3 as amended: when the target selection comes up empty — which can only
happen with at most one actual replica, since more than one replica always
resolves to a nonempty candidate name — upgradePDPod sets the partition
cursor to the ordinal and returns nil, issuing no transfer. -/
theorem c3_no_candidate_behavior :
    (∀ (env : PDEnv) (tc : TidbCluster) (ordinal : Nat) (newSet : StatefulSet)
        (phase : MemberPhase),
      leaderAt tc ordinal = true →
      (pdUpgradeTarget tc ordinal newSet).length = 0 →
      upgradePDPod env tc ordinal newSet phase =
        { result := OpResult.ok, newSet := setUpgradePartition newSet ordinal,
          pdPhase := phase, transfers := [], cursorSets := [ordinal] }) ∧
    (∀ (tc : TidbCluster) (ordinal : Nat) (newSet : StatefulSet),
      PDStsActualReplicas tc > 1 → 0 < (pdUpgradeTarget tc ordinal newSet).length) := by
  constructor
  · intro env tc ordinal newSet phase hl htn
    have hl' : (tc.pd.leaderName == PdName tc.name ordinal tc.nspace tc.clusterDomain
        || tc.pd.leaderName == PdPodName tc.name ordinal) = true := hl
    simp [upgradePDPod, hl', htn]
  · exact pdUpgradeTarget_pos_of_replicas

/-- C3 witness: the no-candidate single-replica leader case concretely
returns nil with the cursor set. -/
theorem c3_witness :
    leaderAt c3Tc 0 = true ∧
      (upgradePDPod c3Env c3Tc 0 c3NewSet MemberPhase.upgrade).transfers = [] :=
  ⟨by decide, by
    rw [c3_no_candidate_behavior.1 c3Env c3Tc 0 c3NewSet MemberPhase.upgrade
      (by decide) (by decide)]⟩

/-- Observed pump set handed to the status sync: present only on a found
lookup. -/
def pumpObs (env : PumpEnv) : Option PumpStsObserved :=
  match env.stsLookup with
  | PumpLookup.found o => some o
  | _ => none

/-- C6: when the managed pump StatefulSet is absent, a pass that reaches the
creation point annotates and creates it synchronously and returns, invoking
neither the Scaler nor the StatefulSet update; and the Scaler and the update
can only ever run on passes whose lookup found the set. -/
theorem c6_create_short_circuit :
    (∀ (env : PumpEnv) (tc : TidbCluster),
      env.stsLookup = PumpLookup.notFound →
      tc.paused = false →
      (∃ cm, env.configMap = Except.ok cm) →
      (∃ st, env.parseStorage = Except.ok st) →
      (∃ sc, env.startScript = Except.ok sc) →
      env.annotationOk = true →
      (syncPumpStatefulSetForTidbCluster env tc).actions
          = [PumpAction.setLastApplied, PumpAction.createSts] ∧
      (env.createErr = none →
        (syncPumpStatefulSetForTidbCluster env tc).result = OpResult.ok)) ∧
    (∀ (env : PumpEnv) (tc : TidbCluster),
      PumpAction.scale ∈ (syncPumpStatefulSetForTidbCluster env tc).actions ∨
        PumpAction.updateSts ∈ (syncPumpStatefulSetForTidbCluster env tc).actions →
      ∃ o, env.stsLookup = PumpLookup.found o) := by
  constructor
  · rintro env tc hlk hp ⟨cm, hcm⟩ ⟨st, hst⟩ ⟨sc, hsc⟩ han
    cases hce : env.createErr with
    | none =>
        constructor <;>
          simp [syncPumpStatefulSetForTidbCluster, syncPumpAfterLookup,
            syncTiDBClusterStatus, getNewPumpStatefulSet, hlk, hp, hcm, hst, hsc, han, hce]
    | some e =>
        constructor <;>
          simp [syncPumpStatefulSetForTidbCluster, syncPumpAfterLookup,
            syncTiDBClusterStatus, getNewPumpStatefulSet, hlk, hp, hcm, hst, hsc, han, hce]
  · intro env tc h
    cases hlk : env.stsLookup with
    | found o => exact ⟨o, rfl⟩
    | lookupErr e =>
        exfalso
        simp [syncPumpStatefulSetForTidbCluster, hlk] at h
    | notFound =>
        exfalso
        simp only [syncPumpStatefulSetForTidbCluster, hlk] at h
        simp only [syncPumpAfterLookup, syncTiDBClusterStatus] at h
        repeat' split at h
        all_goals simp_all

def c6Tc : TidbCluster :=
  { name := "db", nspace := "ns", clusterDomain := "", paused := false,
    pd := { synced := true, phase := MemberPhase.normal, currentRevision := "v1",
            updateRevision := "v1", stsReplicas := 3,
            members := fun _ => none, peerMembers := [], leaderName := "" },
    ticdcPhase := MemberPhase.normal, tiflashPhase := MemberPhase.normal,
    tikvPhase := MemberPhase.normal, pumpPhase := MemberPhase.normal, pumpReplicas := 2 }

def c6Env : PumpEnv :=
  { stsLookup := PumpLookup.notFound, pumpPods := some [], binlogBuildErr := none,
    binlogMembers := Except.ok [], configMap := Except.ok "db-pump",
    parseStorage := Except.ok "10Gi", startScript := Except.ok "run-pump",
    annotationOk := true, createErr := none, scaleErr := none, updateErr := none }

/-- C6 witness: a concrete absent-set pass performs exactly the annotation
and the creation and returns nil. -/
theorem c6_witness :
    c6Env.stsLookup = PumpLookup.notFound ∧
      (syncPumpStatefulSetForTidbCluster c6Env c6Tc).actions
        = [PumpAction.setLastApplied, PumpAction.createSts] :=
  ⟨rfl,
    (c6_create_short_circuit.1 c6Env c6Tc rfl rfl ⟨"db-pump", rfl⟩ ⟨"10Gi", rfl⟩
      ⟨"run-pump", rfl⟩ rfl).1⟩

/-- C7: a malformed pump storage request makes getNewPumpStatefulSet return
a plain configuration error — not a requeue — and the sync pass aborts
before creating, scaling or updating the StatefulSet, surfacing that same
plain error. -/
theorem c7_fatal_storage_error (env : PumpEnv) (tc : TidbCluster) (e : String)
    (hparse : env.parseStorage = Except.error e)
    (hnl : ∀ m, env.stsLookup ≠ PumpLookup.lookupErr m)
    (hst : (syncTiDBClusterStatus env tc (pumpObs env)).1 = OpResult.ok)
    (hp : tc.paused = false)
    (hcm : ∃ cm, env.configMap = Except.ok cm) :
    getNewPumpStatefulSet env tc
        = Except.error ("cannot parse storage request for pump, error: " ++ e) ∧
    (syncPumpStatefulSetForTidbCluster env tc).result
        = OpResult.err ("cannot parse storage request for pump, error: " ++ e) ∧
    (∀ m, (syncPumpStatefulSetForTidbCluster env tc).result ≠ OpResult.requeue m) ∧
    (syncPumpStatefulSetForTidbCluster env tc).actions = [] := by
  obtain ⟨cm, hcm⟩ := hcm
  have hnew : getNewPumpStatefulSet env tc
      = Except.error ("cannot parse storage request for pump, error: " ++ e) := by
    simp [getNewPumpStatefulSet, hparse]
  refine ⟨hnew, ?_⟩
  cases hlk : env.stsLookup with
  | lookupErr m => exact absurd hlk (hnl m)
  | notFound =>
      refine ⟨?_, ?_, ?_⟩ <;>
        simp [syncPumpStatefulSetForTidbCluster, syncPumpAfterLookup,
          syncTiDBClusterStatus, hlk, hp, hcm, hnew]
  | found o =>
      have hobs : pumpObs env = some o := by simp [pumpObs, hlk]
      rw [hobs] at hst
      rcases h2 : syncTiDBClusterStatus env tc (some o) with ⟨r, ph⟩
      rw [h2] at hst
      simp only at hst
      subst hst
      refine ⟨?_, ?_, ?_⟩ <;>
        simp [syncPumpStatefulSetForTidbCluster, syncPumpAfterLookup, hlk, h2, hp,
          hcm, hnew]

def c7Tc : TidbCluster :=
  { name := "db", nspace := "ns", clusterDomain := "", paused := false,
    pd := { synced := true, phase := MemberPhase.normal, currentRevision := "v1",
            updateRevision := "v1", stsReplicas := 3,
            members := fun _ => none, peerMembers := [], leaderName := "" },
    ticdcPhase := MemberPhase.normal, tiflashPhase := MemberPhase.normal,
    tikvPhase := MemberPhase.normal, pumpPhase := MemberPhase.normal, pumpReplicas := 2 }

def c7Env : PumpEnv :=
  { stsLookup := PumpLookup.notFound, pumpPods := some [], binlogBuildErr := none,
    binlogMembers := Except.ok [], configMap := Except.ok "db-pump",
    parseStorage := Except.error "quantities must match the regular expression",
    startScript := Except.ok "run-pump",
    annotationOk := true, createErr := none, scaleErr := none, updateErr := none }

/-- C7 witness: a concrete malformed storage request aborts the pass with
the plain configuration error and no write action. -/
theorem c7_witness :
    c7Env.parseStorage = Except.error "quantities must match the regular expression" ∧
      (syncPumpStatefulSetForTidbCluster c7Env c7Tc).actions = [] :=
  ⟨rfl,
    (c7_fatal_storage_error c7Env c7Tc "quantities must match the regular expression"
      rfl (by intro m h; exact PumpLookup.noConfusion h) (by decide) rfl
      ⟨"db-pump", rfl⟩).2.2.2⟩

theorem scanPumpPods_stops_at_unlabeled (rev : String) :
    ∀ (pods1 : List PumpPod) (p : PumpPod) (pods2 : List PumpPod),
      p.revisionLabel = none →
      (∀ q ∈ pods1, q.revisionLabel = some rev) →
      scanPumpPodsUpgrading rev (pods1 ++ p :: pods2) = false := by
  intro pods1
  induction pods1 with
  | nil =>
      intro p pods2 hp _
      simp [scanPumpPodsUpgrading, hp]
  | cons q rest ih =>
      intro p pods2 hp hall
      have hq := hall q (List.mem_cons_self q rest)
      have hrest : scanPumpPodsUpgrading rev (rest ++ p :: pods2) = false :=
        ih p pods2 hp (fun r hr => hall r (List.mem_cons_of_mem q hr))
      simp [scanPumpPodsUpgrading, hq, hrest]

theorem scanPumpPods_all_labeled (rev : String) :
    ∀ pods : List PumpPod,
      (∀ q ∈ pods, ∃ h, q.revisionLabel = some h) →
      (scanPumpPodsUpgrading rev pods = true ↔ ∃ q ∈ pods, q.revisionLabel ≠ some rev) := by
  intro pods
  induction pods with
  | nil => intro _; simp [scanPumpPodsUpgrading]
  | cons p rest ih =>
      intro hall
      obtain ⟨h, hp⟩ := hall p (List.mem_cons_self p rest)
      have ihr := ih (fun q hq => hall q (List.mem_cons_of_mem p hq))
      by_cases hne : (h != rev) = true
      · constructor
        · intro _
          refine ⟨p, List.mem_cons_self p rest, ?_⟩
          rw [hp]
          intro hcon
          exact bne_iff_ne.mp hne (Option.some.inj hcon)
        · intro _
          simp [scanPumpPodsUpgrading, hp, hne]
      · have heq : h = rev := by simpa [bne_iff_ne] using hne
        rw [heq] at hp
        constructor
        · intro hscan
          have hs : scanPumpPodsUpgrading rev rest = true := by
            simpa [scanPumpPodsUpgrading, hp] using hscan
          obtain ⟨q, hq, hqne⟩ := ihr.mp hs
          exact ⟨q, List.mem_cons_of_mem p hq, hqne⟩
        · rintro ⟨q, hq, hqne⟩
          rcases List.mem_cons.mp hq with rfl | hq'
          · exact absurd hp hqne
          · have hs := ihr.mpr ⟨q, hq', hqne⟩
            simpa [scanPumpPodsUpgrading, hp] using hs

def c10Tc : TidbCluster :=
  { name := "db", nspace := "ns", clusterDomain := "", paused := false,
    pd := { synced := true, phase := MemberPhase.normal, currentRevision := "v1",
            updateRevision := "v1", stsReplicas := 3,
            members := fun _ => none, peerMembers := [], leaderName := "" },
    ticdcPhase := MemberPhase.normal, tiflashPhase := MemberPhase.normal,
    tikvPhase := MemberPhase.normal, pumpPhase := MemberPhase.normal, pumpReplicas := 2 }

def c10Sts : StatefulSet :=
  { replicas := 2, deleteSlots := [], strategyType := StrategyType.rollingUpdate,
    rollingUpdatePartition := some 0, templateSpec := "T", lastAppliedPodSpec := some "T" }

def c10Obs : PumpStsObserved :=
  { set := c10Sts, statusUpdateRevision := "v2", statusUpgrading := false }

def c10Env : PumpEnv :=
  { stsLookup := PumpLookup.found c10Obs,
    pumpPods := some [{ revisionLabel := none }, { revisionLabel := some "v1" }],
    binlogBuildErr := none, binlogMembers := Except.ok [],
    configMap := Except.ok "db-pump", parseStorage := Except.ok "10Gi",
    startScript := Except.ok "run-pump", annotationOk := true,
    createErr := none, scaleErr := none, updateErr := none }

/-- C10: when the StatefulSet status shows no in-flight update, the pod scan
stops with false at the first pod missing the controller-revision-hash
label, whatever pods follow — so an unlabeled pod makes the pump phase
report Normal even when a later pod's revision differs — and when every
scanned pod carries the label the function returns true exactly when some
pod's revision hash differs from the recorded update revision. -/
theorem c10_unlabeled_pod_scan :
    (∀ (rev : String) (pods1 pods2 : List PumpPod) (p : PumpPod),
      p.revisionLabel = none →
      (∀ q ∈ pods1, q.revisionLabel = some rev) →
      pumpStatefulSetIsUpgrading false (some (pods1 ++ p :: pods2)) rev
        = Except.ok false) ∧
    (∀ (rev : String) (pods : List PumpPod),
      (∀ q ∈ pods, ∃ h, q.revisionLabel = some h) →
      (pumpStatefulSetIsUpgrading false (some pods) rev = Except.ok true ↔
        ∃ q ∈ pods, q.revisionLabel ≠ some rev)) ∧
    (pumpStatefulSetIsUpgrading false
        (some [{ revisionLabel := none }, { revisionLabel := some "v1" }]) "v2"
        = Except.ok false ∧
      ({ revisionLabel := some "v1" } : PumpPod).revisionLabel ≠ some "v2" ∧
      (syncTiDBClusterStatus c10Env c10Tc (some c10Obs)).2 = MemberPhase.normal) := by
  refine ⟨?_, ?_, by rfl, by decide, by rfl⟩
  · intro rev pods1 pods2 p hp hall
    simp [pumpStatefulSetIsUpgrading,
      scanPumpPods_stops_at_unlabeled rev pods1 p pods2 hp hall]
  · intro rev pods hall
    rw [show pumpStatefulSetIsUpgrading false (some pods) rev
        = Except.ok (scanPumpPodsUpgrading rev pods) from rfl]
    rw [Except.ok.injEq]
    exact scanPumpPods_all_labeled rev pods hall

/-- C10 witness: the scan ends false at an unlabeled first pod even though
the following pod's revision differs. -/
theorem c10_witness :
    ({ revisionLabel := none } : PumpPod).revisionLabel = none ∧
      pumpStatefulSetIsUpgrading false
        (some (([] : List PumpPod)
          ++ ({ revisionLabel := none } : PumpPod) :: [{ revisionLabel := some "v1" }])) "v2"
        = Except.ok false :=
  ⟨rfl, c10_unlabeled_pod_scan.1 "v2" [] [{ revisionLabel := some "v1" }]
    { revisionLabel := none } rfl (by simp)⟩

/-- Cap behaviour of the catch-up loop: if the next 101 - acc.length orbit
times starting at t are all within now, the loop hits the 100 cap and exits
on the branch selected by the recovery flag. -/
theorem missedLoop_cap (next : Nat → Nat) (now : Nat) (recovery : Bool) :
    ∀ (fuel t : Nat) (acc : List Nat),
      acc.length ≤ 100 →
      101 - acc.length ≤ fuel →
      (∀ s ∈ schedOrbit next t (101 - acc.length), s ≤ now) →
      missedLoop next now recovery fuel t acc =
        (if recovery then MissedOut.capRecovery else MissedOut.capDrop) := by
  intro fuel
  induction fuel with
  | zero =>
      intro t acc hlen hfuel _
      omega
  | succ fuel ih =>
      intro t acc hlen hfuel horb
      have hk : 101 - acc.length = (100 - acc.length) + 1 := by omega
      rw [hk] at horb
      have htle : t ≤ now := horb t (by simp [schedOrbit])
      rw [missedLoop]
      rw [if_neg (by omega)]
      by_cases hcap : 100 < (acc ++ [t]).length
      · simp only [hcap, if_true]
      · simp only [hcap, if_false]
        have hlen' : (acc ++ [t]).length = acc.length + 1 := by simp
        apply ih (next t) (acc ++ [t])
        · omega
        · omega
        · intro s hs
          apply horb
          rw [show 101 - (acc ++ [t]).length = 100 - acc.length by omega] at hs
          simp [schedOrbit]
          right
          exact hs

def c8St : BackupScheduleStatus :=
  { lastBackupTime := none, allBackupCleanTime := some 0, creationTimestamp := 0 }

set_option maxRecDepth 8000

/-- C8 counterexample: past the cap the drop is not always silent — with
LastBackupTime nil and AllBackupCleanTime set (pause recovery), the call
returns a retryable requeue error and refreshes AllBackupCleanTime to now,
rather than silently dropping; more than 100 missed times are present. -/
theorem c8_counterexample :
    (schedOrbit Nat.succ (Nat.succ (bsEarliestTime c8St)) 101).all (fun t => t ≤ 150) = true ∧
    (getLastScheduledTime Nat.succ c8St 150).time = none ∧
    (getLastScheduledTime Nat.succ c8St 150).result
        = OpResult.requeue "recovery backup schedule from pause status, refresh AllBackupCleanTime" ∧
    (getLastScheduledTime Nat.succ c8St 150).newAllBackupCleanTime = some 150 := by
  decide

/-- C8 as amended: whenever more than 100 missed times accumulate between
the reference time and now (the first 101 orbit times are all within now),
getLastScheduledTime returns no scheduled time — so no backup is created
that pass; on the pause-recovery status shape it does so with a requeue
error and a refreshed AllBackupCleanTime, and on every other status shape it
silently drops them, leaving the status untouched. -/
theorem c8_cap_amended (next : Nat → Nat) (st : BackupScheduleStatus) (now : Nat)
    (hearly : bsEarliestTime st ≤ now)
    (hcap : ∀ s ∈ schedOrbit next (next (bsEarliestTime st)) 101, s ≤ now) :
    (getLastScheduledTime next st now).time = none ∧
    (st.lastBackupTime = none → ∀ c, st.allBackupCleanTime = some c →
      (getLastScheduledTime next st now).result
          = OpResult.requeue "recovery backup schedule from pause status, refresh AllBackupCleanTime" ∧
      (getLastScheduledTime next st now).newAllBackupCleanTime = some now) ∧
    ((st.lastBackupTime.isNone && st.allBackupCleanTime.isSome) = false →
      (getLastScheduledTime next st now).result = OpResult.ok ∧
      (getLastScheduledTime next st now).newAllBackupCleanTime = st.allBackupCleanTime) := by
  have hloop := missedLoop_cap next now
    (st.lastBackupTime.isNone && st.allBackupCleanTime.isSome)
    102 (next (bsEarliestTime st)) []
    (by simp) (by simp) (by simpa using hcap)
  cases hrec : (st.lastBackupTime.isNone && st.allBackupCleanTime.isSome) with
  | true =>
      rw [hrec, if_pos rfl] at hloop
      refine ⟨?_, ?_, ?_⟩
      · simp [getLastScheduledTime, if_neg (by omega : ¬ now < bsEarliestTime st),
          hrec, hloop]
      · intro _ c _
        constructor <;>
          simp [getLastScheduledTime, if_neg (by omega : ¬ now < bsEarliestTime st),
            hrec, hloop]
      · intro hfalse
        exact absurd hfalse (by simp)
  | false =>
      rw [hrec, if_neg (by simp)] at hloop
      refine ⟨?_, ?_, ?_⟩
      · simp [getLastScheduledTime, if_neg (by omega : ¬ now < bsEarliestTime st),
          hrec, hloop]
      · intro hnone c hsome
        rw [hnone, hsome] at hrec
        simp at hrec
      · intro _
        constructor <;>
          simp [getLastScheduledTime, if_neg (by omega : ¬ now < bsEarliestTime st),
            hrec, hloop]

def c8wSt : BackupScheduleStatus :=
  { lastBackupTime := some 0, allBackupCleanTime := none, creationTimestamp := 0 }

/-- C8 witness: a capped catch-up on a plain status shape yields no
scheduled time. -/
theorem c8_witness :
    bsEarliestTime c8wSt ≤ 150 ∧ (getLastScheduledTime Nat.succ c8wSt 150).time = none :=
  ⟨by decide, (c8_cap_amended Nat.succ c8wSt 150 (by decide) (by decide)).1⟩
